import Mathlib

/-!
Verification development for the Profound VIF2CSV reader
(src/PythonVersion.py).  The byte stream is modelled as a `List Nat`
(each entry one byte, 0..255); Python integers are `Nat`/`Int`; Python
floats are modelled as exact rationals (`ℚ`); code that can raise an
exception is modelled with `Option` (`none` = an exception escapes).
-/

namespace Vif

/-- Little-endian 16-bit read at `off`; port of `u16_le`
(`buf[off] | (buf[off + 1] << 8)`). -/
def u16_le (buf : List Nat) (off : Nat) : Nat :=
  buf.getD off 0 ||| (buf.getD (off + 1) 0 <<< 8)

/-- Port of `VifReader._to_i16`: mask to 16 bits, then subtract `0x10000`
when bit 15 is set. -/
def to_i16 (u : Nat) : Int :=
  let m := u % 0x10000
  if m &&& 0x8000 ≠ 0 then (m : Int) - 0x10000 else (m : Int)

/-- The 3-byte record marker test of the scanner in `process_records`:
the list starts with bytes `"VIB"` = 86, 73, 66 (and has at least 3
elements, mirroring the guard `i + 2 < window_len`). -/
def startsWithMarker : List Nat → Bool
  | a :: b :: c :: _ => a == 86 && b == 73 && c == 66
  | _ => false

/-- Linear scan of the inner `while` loop in `process_records`: first
index `≥ i` (the second argument tracks the absolute index of the head
of the list) at which the marker `"VIB"` starts. -/
def findMarkerAux : List Nat → Nat → Option Nat
  | [], _ => none
  | l@(_ :: xs), i => if startsWithMarker l then some i else findMarkerAux xs (i + 1)

/-- First marker position at index `≥ i` in `buf`. -/
def findMarker (buf : List Nat) (i : Nat) : Option Nat :=
  findMarkerAux (buf.drop i) i

/-- The 70-byte candidate buffer (`last_record`): `min advance 70` bytes
copied from `buf` starting at `j`, zero-padded to 70 bytes. -/
def candidateBytes (buf : List Nat) (j advance : Nat) : List Nat :=
  ((buf.drop j).take (min advance 70)) ++ List.replicate (70 - min advance 70) 0

/-- The advance distance of one candidate in `process_records`:
`MIN_RECORD_BYTES if record_size < MIN_RECORD_BYTES else record_size`
with the size field read at `j + 4`. -/
def advance_of (buf : List Nat) (j : Nat) : Nat :=
  if u16_le buf (j + 4) < 12 then 12 else u16_le buf (j + 4)

/-- One iteration of the scanning loop of `process_records` on the full
stream: find the next marker from `idx`; require 12 bytes of header and
`advance_of` bytes of body (else the scan stops, a failing
`ensure_bytes` modelling stream exhaustion); return the padded
candidate, its absolute position, and the next scan index. -/
def scanStep (buf : List Nat) (idx : Nat) : Option ((List Nat × Nat) × Nat) :=
  match findMarker buf idx with
  | none => none
  | some j =>
    if j + 12 ≤ buf.length then
      if j + advance_of buf j ≤ buf.length then
        some ((candidateBytes buf j (advance_of buf j), j), j + advance_of buf j)
      else none
    else none

/-- Port of `get_read_type_from_delta`: 2 when the inter-record delta is
exactly 68, else 5. -/
def get_read_type_from_delta (delta : Int) : Nat :=
  if delta = 68 then 2 else 5

/-- End-of-stream flush of `process_records`: the pending candidate, if
any, is emitted with read type forced to 2. -/
def flushPending : Option (List Nat × Nat) → List (List Nat × Nat)
  | none => []
  | some (r, _) => [(r, 2)]

/-- Emission of the pending candidate when the next candidate is found
at absolute position `pos`: its read type comes from the position
delta. -/
def emitPending : Option (List Nat × Nat) → Nat → List (List Nat × Nat)
  | none, _ => []
  | some (r, p), pos => [(r, get_read_type_from_delta ((pos : Int) - (p : Int)))]

/-- Fuelled form of the scanning loop of `process_records`, carrying the
one-behind pending candidate.  Each step consumes at least 12 bytes
(`scanStep_progress`), so fuel `buf.length + 1` never runs out; the
fuel-0 branch flushes like end of stream and is unreachable from
`processRecords`. -/
def scanLoopF : Nat → List Nat → Nat → Option (List Nat × Nat) → List (List Nat × Nat)
  | 0, _, _, pending => flushPending pending
  | fuel + 1, buf, idx, pending =>
    match scanStep buf idx with
    | none => flushPending pending
    | some ((rec, pos), next) =>
      emitPending pending pos ++ scanLoopF fuel buf next (some (rec, pos))

/-- The record scanner of `process_records`: the list of
`(70-byte candidate, read type)` pairs handed to `process_record`, in
order. -/
def processRecords (stream : List Nat) : List (List Nat × Nat) :=
  scanLoopF (stream.length + 1) stream 0 none

/-- The raw candidates found by the scanner, with their absolute stream
positions, before read types are assigned. -/
def candLoopF : Nat → List Nat → Nat → List (List Nat × Nat)
  | 0, _, _ => []
  | fuel + 1, buf, idx =>
    match scanStep buf idx with
    | none => []
    | some (c, next) => c :: candLoopF fuel buf next

/-- All `(candidate, position)` pairs of a stream. -/
def candidates (stream : List Nat) : List (List Nat × Nat) :=
  candLoopF (stream.length + 1) stream 0

/-- Modelled from the spec: the one-behind emission discipline as the
spec describes it — each of the first N-1 candidates is paired with a
read type computed from the position delta to its successor (2 exactly
when the delta is 68, else 5), and the final candidate is emitted with
read type forced to 2. -/
def emitOneBehind : List (List Nat × Nat) → List (List Nat × Nat)
  | [] => []
  | [(r, _)] => [(r, 2)]
  | (r, p) :: (r2, p2) :: rest =>
    (r, if ((p2 : Int) - (p : Int)) = 68 then 2 else 5) :: emitOneBehind ((r2, p2) :: rest)

example : findMarker [0, 86, 73, 66, 9] 0 = some 1 := by decide
example : findMarker [86, 73, 66] 1 = none := by decide
example : get_read_type_from_delta 68 = 2 := by decide
example : get_read_type_from_delta 69 = 5 := by decide

/-- Configuration passed in by the CLI layer, plus the current date
(`datetime.date.today()`, an environment input of `process_record`)
as a `(year, month, day)` triple. -/
structure Config where
  print_number : Bool
  filter_today : Bool
  long_format : Bool
  date_filter : Option String
  today : Nat × Nat × Nat

/-- Port of `is_valid_to_process`:
`read_type <= 9 and record_size == 68 and ((1 << read_type) & 0x45) != 0`. -/
def is_valid_to_process (record_size read_type : Nat) : Bool :=
  decide (read_type ≤ 9 ∧ record_size = 68 ∧ ((1 <<< read_type) &&& 0x45) ≠ 0)

/-- Port of `datetime_valid`: field range checks and the per-month day
count, February using the low-two-bits leap test on the 2-digit year. -/
def datetime_valid (second minute hour day month year_yy : Nat) : Bool :=
  if second > 59 ∨ minute > 59 ∨ hour > 23 then false
  else if year_yy > 99 then false
  else if month < 1 ∨ month > 12 then false
  else decide (1 ≤ day ∧ day ≤
    (if month = 1 ∨ month = 3 ∨ month = 5 ∨ month = 7 ∨ month = 8 ∨ month = 10 ∨ month = 12
      then 31
     else if month = 4 ∨ month = 6 ∨ month = 9 ∨ month = 11 then 30
     else if year_yy &&& 3 = 0 then 29 else 28))

/-- Modelled from the spec: the day count of a month per the claimed
calendar rule — February has 29 days exactly when the 2-digit year is
divisible by 4, 28 otherwise; 30-day months are 4, 6, 9, 11; the rest
have 31.  Stated independently of the code for comparison with
`datetime_valid`. -/
def daysInMonthSpec (month year_yy : Nat) : Nat :=
  if month = 2 then (if year_yy % 4 = 0 then 29 else 28)
  else if month = 4 ∨ month = 6 ∨ month = 9 ∨ month = 11 then 30
  else 31

/-- Zero-padded decimal rendering, port of Python `f"{n:0wd}"`. -/
def padNum (w n : Nat) : String :=
  String.mk (List.replicate (w - (toString n).length) '0') ++ toString n

/-- The `date_s` string of `process_record`:
`f"{year:04d}-{month:02d}-{day:02d}"`. -/
def dateString (year month day : Nat) : String :=
  padNum 4 year ++ "-" ++ padNum 2 month ++ "-" ++ padNum 2 day

/-- The accept/skip decision of `process_record` on a candidate: `true`
exactly when the record survives the read-type/size/type-byte checks,
the datetime validation, and the date filters, i.e. when
`records_processed` is incremented and a CSV row is written; on every
`false` path the source increments `records_skipped` by one and writes
nothing. -/
def process_record_accepts (cfg : Config) (rec : List Nat) (read_type : Nat) : Bool :=
  let record_type := rec.getD 3 0
  let record_size := u16_le rec 4
  if is_valid_to_process record_size read_type = false then false
  else if record_type &&& 0xFD ≠ 0x88 then false
  else if record_size ≠ 68 then false
  else if datetime_valid (rec.getD 6 0) (rec.getD 7 0) (rec.getD 8 0)
      (rec.getD 9 0) (rec.getD 10 0) (rec.getD 11 0) = false then false
  else if cfg.filter_today then
    decide ((2000 + rec.getD 11 0, rec.getD 10 0, rec.getD 9 0) = cfg.today)
  else
    match cfg.date_filter with
    | some df => decide (dateString (2000 + rec.getD 11 0) (rec.getD 10 0) (rec.getD 9 0) = df)
    | none => true

/-- Increment of the `records_skipped` counter caused by one candidate:
1 exactly when the candidate is rejected. -/
def records_skipped_delta (cfg : Config) (rec : List Nat) (read_type : Nat) : Nat :=
  if process_record_accepts cfg rec read_type then 0 else 1

/-- A candidate passing the three structural checks of `process_record`:
`is_valid_to_process`, type byte masked with `0xFD` equal to `0x88`, and
declared size 68. -/
def structurally_accepted (rec : List Nat) (read_type : Nat) : Bool :=
  is_valid_to_process (u16_le rec 4) read_type
    && decide (rec.getD 3 0 &&& 0xFD = 0x88) && decide (u16_le rec 4 = 68)

/-- Port of `sv_from_float16`.  `v2` is the exponent
`((value & 0xFFFF) >> 11) - 1`; when `v2 ≤ 0x13` the Python code
evaluates `v3 << int(v2)`, which raises `ValueError` for `v2 = -1`
(modelled as `none`); otherwise it returns the raw value unchanged. -/
def sv_from_float16 (value_i16 : Int) : Option Int :=
  let v2 : Int := (value_i16 % 0x10000) / 0x800 - 1
  if v2 ≤ 0x13 then
    if v2 < 0 then none
    else
      let v3 : Nat := (value_i16 % 0x800).toNat ||| 0x800
      some ((v3 <<< v2.toNat : Nat) : Int)
  else some value_i16

/-- Port of `is_special_value`: the sentinel band `[-4, -1]`. -/
def is_special_value (v : Int) : Bool :=
  decide (-4 ≤ v ∧ v ≤ -1)

/-- Port of `is_overload`: decoded integers above 99 999 999. -/
def is_overload (v : Int) : Bool :=
  decide (v > 99999999)

/-- `sys.maxsize` of 64-bit CPython, the overload sentinel. -/
def sysMaxsize : Int := 9223372036854775807

/-- Port of `sv_is_value_valid`.  For `v1 > 0x13` the sign-extended raw
value is classified directly; otherwise the code evaluates
`v2 << int(v1)`, which raises `ValueError` for `v1 = -1`
(`value_u16 < 0x800`), modelled as `none`. -/
def sv_is_value_valid (value_u16 : Nat) : Option Int :=
  let v1 : Int := ((value_u16 >>> 11 : Nat) : Int) - 1
  if v1 > 0x13 then
    let result : Int := to_i16 value_u16
    if result % 0x100000000 < 0xFFFFFFFC then some 0 else some result
  else
    if v1 < 0 then none
    else
      let v2 : Nat := value_u16 &&& 0x7FF
      let v2 : Nat := (v2 &&& 0xFF) ||| ((((v2 >>> 8) ||| 8) &&& 0xFFFF) <<< 8)
      let result : Nat := v2 <<< v1.toNat
      if (result + 4) % 0x100000000 > 3 then
        if result ≤ 99999999 then some 0 else some sysMaxsize
      else some (result : Int)

/-- Port of `axis_status`: probe the v, u, a, cv sub-fields of an axis
block with `sv_is_value_valid` and keep the first non-zero status;
`none` propagates a `ValueError` escaping from `sv_is_value_valid`. -/
def axis_status (rec : List Nat) (off : Nat) : Option Int := do
  let s ← sv_is_value_valid (u16_le rec off)
  if s ≠ 0 then return s
  let s ← sv_is_value_valid (u16_le rec (off + 6))
  if s ≠ 0 then return s
  let s ← sv_is_value_valid (u16_le rec (off + 8))
  if s ≠ 0 then return s
  sv_is_value_valid (u16_le rec (off + 10))

/-- Definedness of the KB-mode decode in `parse_direction`:
`math.sqrt(self.sv_from_float16(kbzc_raw))` is defined only when
`sv_from_float16` returns (no negative shift) and its result is
non-negative (sqrt domain). -/
def kb_sqrt_defined (kbzc_raw : Int) : Bool :=
  match sv_from_float16 kbzc_raw with
  | none => false
  | some v => decide (0 ≤ v)

/-- The epsilon of `format_fixed_odd`'s tie test (`tie_eps = 1e-7`). -/
def tieEps : ℚ := 1 / 10000000

/-- The rounded integer computed by `format_fixed_odd` from the absolute
scaled value `abs_scaled = |value * 10^decimals|` (with floor `fl` and
fractional part `frac = abs_scaled - fl`): round up above the
half-tolerance band, down below it, and to whichever of floor and
floor+1 is odd inside it. -/
def fixedOddRounded (value : ℚ) (decimals : Nat) : ℤ :=
  if |value * 10 ^ decimals| - ⌊|value * 10 ^ decimals|⌋ > 1/2 + tieEps then
    ⌊|value * 10 ^ decimals|⌋ + 1
  else if |value * 10 ^ decimals| - ⌊|value * 10 ^ decimals|⌋ < 1/2 - tieEps then
    ⌊|value * 10 ^ decimals|⌋
  else if ⌊|value * 10 ^ decimals|⌋ % 2 = 0 then ⌊|value * 10 ^ decimals|⌋ + 1
  else ⌊|value * 10 ^ decimals|⌋

/-- Port of `format_fixed_odd` with Python floats modelled as exact
rationals: round `|value| * 10^decimals` with the odd-tie rule, reapply
the sign (the source's `sign = 1.0 if scaled >= 0 else -1.0`), and
render `rounded / 10^decimals` with exactly `decimals` fractional
digits (the `f"{result:.{decimals}f}"` of the source, which is exact
here because the result is a multiple of `10^-decimals`). -/
def format_fixed_odd (value : ℚ) (decimals : Nat) : String :=
  (if 0 ≤ value * 10 ^ decimals then "" else "-")
    ++ (if decimals = 0 then toString (fixedOddRounded value decimals).toNat
        else toString ((fixedOddRounded value decimals).toNat / 10 ^ decimals) ++ "."
          ++ padNum decimals ((fixedOddRounded value decimals).toNat % 10 ^ decimals))

/-- Port of `format_float16`: decode the custom float, render sentinels
as the empty field, otherwise divide by 1 000 000 and format with the
odd-tie formatter; `none` propagates the `ValueError` of
`sv_from_float16`. -/
def format_float16 (cfg : Config) (value_u16 : Nat) : Option String :=
  match sv_from_float16 (to_i16 value_u16) with
  | none => none
  | some int_val =>
    if is_special_value int_val || is_overload int_val then some ""
    else some (format_fixed_odd ((int_val : ℚ) / 1000000) (if cfg.long_format then 4 else 2))

/-- Port of `format_geophone`: the top two bits select the tag, the low
14 bits give the zero-padded 5-digit serial. -/
def format_geophone (value_u16 : Nat) : String :=
  let typ := value_u16 &&& 0xC000
  let number := value_u16 &&& 0x3FFF
  if typ = 0x4000 then "TDA" ++ padNum 5 number
  else if typ = 0x8000 then "TDS" ++ padNum 5 number
  else if typ = 0xC000 then "???00000"
  else "unknown" ++ padNum 5 number

example : padNum 5 5 = "00005" := by decide
example : format_geophone 0x4005 = "TDA00005" := by decide
example : format_geophone 0x0007 = "unknown00007" := by decide
example : sv_from_float16 0 = none := by decide
example : sv_from_float16 4096 = some 4096 := by decide
example : sv_is_value_valid 0 = none := by decide
example : sv_is_value_valid 0x800 = some 0 := by decide
example : datetime_valid 0 0 0 29 2 24 = true := by decide
example : datetime_valid 0 0 0 29 2 23 = false := by decide
example : format_fixed_odd (5/2) 0 = "3" := by
  have h : fixedOddRounded (5/2) 0 = 3 := by
    rw [fixedOddRounded]
    rw [show |(5/2 : ℚ) * 10 ^ (0:ℕ)| = 5/2 by norm_num]
    rw [show ⌊(5/2 : ℚ)⌋ = 2 by norm_num]
    norm_num [tieEps]
  rw [format_fixed_odd, h]
  rw [if_pos (by norm_num : (0:ℚ) ≤ 5/2 * 10 ^ (0:ℕ))]
  decide

lemma advance_of_ge (buf : List Nat) (j : Nat) : 12 ≤ advance_of buf j := by
  unfold advance_of
  split <;> omega

lemma advance_of_eq_max (buf : List Nat) (j : Nat) :
    advance_of buf j = max (u16_le buf (j + 4)) 12 := by
  unfold advance_of
  split <;> omega

lemma findMarkerAux_ge {l : List Nat} {i j : Nat} (h : findMarkerAux l i = some j) :
    i ≤ j := by
  induction l generalizing i with
  | nil => simp [findMarkerAux] at h
  | cons x xs ih =>
    rw [findMarkerAux] at h
    split at h
    · simp at h
      omega
    · have := ih h
      omega

lemma findMarker_ge {buf : List Nat} {i j : Nat} (h : findMarker buf i = some j) :
    i ≤ j :=
  findMarkerAux_ge h

/-- Anatomy of a successful scan step: the marker position is at or
after the scan index, the emitted candidate is the padded copy, and the
scan index advances by `advance_of` — at least 12 — while staying
inside the stream. -/
lemma scanStep_some {buf : List Nat} {idx : Nat} {b : List Nat} {j next : Nat}
    (h : scanStep buf idx = some ((b, j), next)) :
    idx ≤ j ∧ b = candidateBytes buf j (advance_of buf j) ∧
      next = j + advance_of buf j ∧ idx + 12 ≤ next ∧ next ≤ buf.length := by
  unfold scanStep at h
  cases hm : findMarker buf idx with
  | none => rw [hm] at h; simp at h
  | some j' =>
    rw [hm] at h
    simp only [] at h
    split_ifs at h with h12 hadv
    · simp only [Option.some.injEq, Prod.mk.injEq] at h
      obtain ⟨⟨hb, hj⟩, hn⟩ := h
      subst hj
      have hij := findMarker_ge hm
      have hge := advance_of_ge buf j'
      exact ⟨hij, hb.symm, hn.symm, by omega, by omega⟩

/-- Fuel beyond `buf.length - idx` does not change the scan. -/
lemma scanLoopF_fuel_congr (buf : List Nat) :
    ∀ f1 f2 idx pending, buf.length - idx < f1 → buf.length - idx < f2 →
      scanLoopF f1 buf idx pending = scanLoopF f2 buf idx pending := by
  intro f1
  induction f1 with
  | zero => intro f2 idx pending h1 h2; omega
  | succ f1 ih =>
    intro f2 idx pending h1 h2
    cases f2 with
    | zero => omega
    | succ f2 =>
      cases hs : scanStep buf idx with
      | none => simp only [scanLoopF, hs]
      | some cn =>
        obtain ⟨⟨rec, pos⟩, next⟩ := cn
        have hb := scanStep_some hs
        simp only [scanLoopF, hs]
        rw [ih f2 next (some (rec, pos)) (by omega) (by omega)]

/-- Every emission step of the pending candidate keeps the one-behind
shape described by the spec. -/
lemma scanLoopF_emitOneBehind (buf : List Nat) :
    ∀ fuel idx r p, scanLoopF fuel buf idx (some (r, p)) =
      emitOneBehind ((r, p) :: candLoopF fuel buf idx) := by
  intro fuel
  induction fuel with
  | zero => intro idx r p; simp [scanLoopF, candLoopF, flushPending, emitOneBehind]
  | succ fuel ih =>
    intro idx r p
    cases hs : scanStep buf idx with
    | none => simp [scanLoopF, candLoopF, hs, flushPending, emitOneBehind]
    | some cn =>
      obtain ⟨⟨rec, pos⟩, next⟩ := cn
      simp only [scanLoopF, candLoopF, hs, emitPending, get_read_type_from_delta,
        ih next rec pos, emitOneBehind]
      rfl

/-- C9: Forward progress / termination: a found marker at `j` advances
the scan cursor to `j + max(declared_size, 12)`, which is at least 12
bytes past the previous cursor and still inside the stream; hence the
loop cannot stall (a declared size of 0 or below 12 still advances 12),
and any fuel beyond the stream length computes the same, terminating,
scan. -/
theorem c9_forward_progress_termination :
    (∀ (buf : List Nat) (idx : Nat) (b : List Nat) (j next : Nat),
        scanStep buf idx = some ((b, j), next) →
        next = j + max (u16_le buf (j + 4)) 12 ∧ idx + 12 ≤ next ∧ next ≤ buf.length)
    ∧ ∀ (buf : List Nat) (fuel : Nat), buf.length < fuel →
        scanLoopF fuel buf 0 none = processRecords buf := by
  constructor
  · intro buf idx b j next h
    have hb := scanStep_some h
    rw [← advance_of_eq_max]
    exact ⟨hb.2.2.1, hb.2.2.2.1, hb.2.2.2.2⟩
  · intro buf fuel h
    exact scanLoopF_fuel_congr buf fuel (buf.length + 1) 0 none (by omega) (by omega)

/-- Witness for C9: on the 12-byte stream `"VIB"` + type `0x88` + size
field 0, the scanner's first step advances by exactly
`max(0, 12) = 12` bytes. -/
theorem c9_witness :
    (12 = 0 + max (u16_le [86, 73, 66, 136, 0, 0, 0, 0, 0, 0, 0, 0] (0 + 4)) 12
      ∧ 0 + 12 ≤ 12 ∧ 12 ≤ ([86, 73, 66, 136, 0, 0, 0, 0, 0, 0, 0, 0] : List Nat).length)
    ∧ scanLoopF 20 [86, 73, 66, 136, 0, 0, 0, 0, 0, 0, 0, 0] 0 none
      = processRecords [86, 73, 66, 136, 0, 0, 0, 0, 0, 0, 0, 0] :=
  ⟨c9_forward_progress_termination.1 [86, 73, 66, 136, 0, 0, 0, 0, 0, 0, 0, 0] 0
      (candidateBytes [86, 73, 66, 136, 0, 0, 0, 0, 0, 0, 0, 0] 0 12) 0 12 (by decide),
    c9_forward_progress_termination.2 [86, 73, 66, 136, 0, 0, 0, 0, 0, 0, 0, 0] 20
      (by decide)⟩

/-- C3: One-behind emission: the scanner's emitted stream equals the
spec-level one-behind pairing of its candidates — each of the first
N-1 candidates is emitted with read type 2 exactly when the byte-offset
delta to its successor's start is 68 and with read type 5 for any other
delta, and the final candidate is always emitted with read type forced
to 2, regardless of trailing distance. -/
theorem c3_one_behind_emission (stream : List Nat) :
    processRecords stream = emitOneBehind (candidates stream) := by
  rw [processRecords, candidates]
  cases hs : scanStep stream 0 with
  | none => simp [scanLoopF, candLoopF, hs, flushPending, emitOneBehind]
  | some cn =>
    obtain ⟨⟨rec, pos⟩, next⟩ := cn
    simp only [scanLoopF, candLoopF, hs, emitPending, List.nil_append,
      scanLoopF_emitOneBehind]

lemma getD_drop_eq (l : List Nat) (m k : Nat) :
    l.getD (m + k) 0 = (l.drop m).getD k 0 := by
  simp [List.getD_eq_getElem?_getD, List.getElem?_drop]

lemma marker_shape {l : List Nat} (h : startsWithMarker l = true) :
    ∃ t, l = 86 :: 73 :: 66 :: t := by
  rcases l with _ | ⟨a, _ | ⟨b, _ | ⟨c, t⟩⟩⟩ <;> simp [startsWithMarker] at h
  exact ⟨t, by simp_all⟩

/-- A marker cannot start inside the noise and straddle into the next
record, because the next record itself starts with the marker byte
`86`. -/
lemma startsWithMarker_append_of_not {x : Nat} {xs r2 : List Nat}
    (h0 : startsWithMarker (x :: xs) = false) (hr : startsWithMarker r2 = true) :
    startsWithMarker ((x :: xs) ++ r2) = false := by
  obtain ⟨t, ht⟩ := marker_shape hr
  subst ht
  rcases xs with _ | ⟨y, _ | ⟨z, rest⟩⟩
  · simp [startsWithMarker]
  · simp [startsWithMarker]
  · simpa [startsWithMarker] using h0

lemma findMarkerAux_here {l : List Nat} (h : startsWithMarker l = true)
    (rest : List Nat) (i : Nat) : findMarkerAux (l ++ rest) i = some i := by
  obtain ⟨t, ht⟩ := marker_shape h
  subst ht
  rw [List.cons_append, findMarkerAux, if_pos]
  simp [startsWithMarker, List.cons_append]

/-- Scanning past marker-free noise finds the marker of the following
record exactly at the end of the noise. -/
lemma findMarkerAux_skip (r2 : List Nat) (hr : startsWithMarker r2 = true) :
    ∀ (noise : List Nat) (i : Nat), (∀ k, startsWithMarker (noise.drop k) = false) →
      findMarkerAux (noise ++ r2) i = some (i + noise.length) := by
  intro noise
  induction noise with
  | nil =>
    intro i hn
    obtain ⟨t, ht⟩ := marker_shape hr
    subst ht
    rw [List.nil_append, findMarkerAux, if_pos hr]
    simp
  | cons x xs ih =>
    intro i hn
    have h0 : startsWithMarker (x :: xs) = false := by simpa using hn 0
    have hmar := startsWithMarker_append_of_not h0 hr
    rw [List.cons_append, findMarkerAux, if_neg]
    · rw [ih (i + 1) (fun k => by simpa [List.drop_succ_cons] using hn (k + 1))]
      congr 1
      simp [List.length_cons]
      omega
    · rw [← List.cons_append, hmar]
      simp

/-- A successful scan step at a marker position `j` where the stream
continues with a well-formed 68-byte record: the candidate is the
record padded to 70 bytes and the cursor advances by exactly 68. -/
lemma scanStep_found {buf r rest : List Nat} {idx j : Nat}
    (hm : findMarker buf idx = some j)
    (hdrop : buf.drop j = r ++ rest)
    (hrl : r.length = 68) (hrs : u16_le r 4 = 68)
    (hjlen : j + 68 ≤ buf.length) :
    scanStep buf idx = some ((r ++ [0, 0], j), j + 68) := by
  have hu : u16_le buf (j + 4) = 68 := by
    unfold u16_le at hrs ⊢
    rw [getD_drop_eq buf j 4, getD_drop_eq buf j 5, hdrop,
      List.getD_append _ _ _ _ (by omega), List.getD_append _ _ _ _ (by omega)]
    exact hrs
  have hadv : advance_of buf j = 68 := by
    unfold advance_of
    rw [hu]
    norm_num
  have hcand : candidateBytes buf j 68 = r ++ [0, 0] := by
    unfold candidateBytes
    rw [hdrop, show min 68 70 = 68 from rfl, List.take_left' hrl]
    rfl
  unfold scanStep
  rw [hm]
  simp only []
  rw [if_pos (by omega), hadv, if_pos (by omega), hcand]

/-- Scanning a stream of one valid 68-byte record, arbitrary
marker-free noise, and a second valid 68-byte record: both records are
found with their original bytes; the first is emitted with read type 2
when there is no noise (delta 68) and with read type 5 otherwise, and
the second is flushed with read type 2. -/
theorem scanTwoRecords (r1 r2 noise : List Nat)
    (h1l : r1.length = 68) (h1m : startsWithMarker r1 = true) (h1s : u16_le r1 4 = 68)
    (h2l : r2.length = 68) (h2m : startsWithMarker r2 = true) (h2s : u16_le r2 4 = 68)
    (hn : ∀ k, startsWithMarker (noise.drop k) = false) :
    processRecords (r1 ++ (noise ++ r2)) =
      [(r1 ++ [0, 0], if noise.length = 0 then 2 else 5), (r2 ++ [0, 0], 2)] := by
  have hlen : (r1 ++ (noise ++ r2)).length = 136 + noise.length := by
    simp [h1l, h2l]
    omega
  have hm1 : findMarker (r1 ++ (noise ++ r2)) 0 = some 0 := by
    rw [findMarker, List.drop_zero]
    exact findMarkerAux_here h1m (noise ++ r2) 0
  have hd1 : (r1 ++ (noise ++ r2)).drop 0 = r1 ++ (noise ++ r2) := List.drop_zero _
  have hstep1 : scanStep (r1 ++ (noise ++ r2)) 0 = some ((r1 ++ [0, 0], 0), 0 + 68) :=
    @scanStep_found (r1 ++ (noise ++ r2)) r1 (noise ++ r2) 0 0 hm1 hd1 h1l h1s (by omega)
  have hdrop68 : (r1 ++ (noise ++ r2)).drop 68 = noise ++ r2 :=
    List.drop_left' h1l
  have hm2 : findMarker (r1 ++ (noise ++ r2)) 68 = some (68 + noise.length) := by
    rw [findMarker, hdrop68]
    exact findMarkerAux_skip r2 h2m noise 68 hn
  have hd2 : (r1 ++ (noise ++ r2)).drop (68 + noise.length) = r2 ++ [] := by
    rw [← List.drop_drop, hdrop68, List.drop_left' rfl, List.append_nil]
  have hstep2 : scanStep (r1 ++ (noise ++ r2)) 68 =
      some ((r2 ++ [0, 0], 68 + noise.length), 68 + noise.length + 68) :=
    @scanStep_found (r1 ++ (noise ++ r2)) r2 [] 68 (68 + noise.length) hm2 hd2 h2l h2s
      (by omega)
  have hstep3 : scanStep (r1 ++ (noise ++ r2)) (68 + noise.length + 68) = none := by
    unfold scanStep
    rw [findMarker, List.drop_eq_nil_of_le (by omega)]
    rfl
  rw [processRecords, hlen]
  rw [show 136 + noise.length + 1 = (136 + noise.length) + 1 from rfl]
  simp only [scanLoopF, hstep1]
  rw [show 136 + noise.length = (135 + noise.length) + 1 by omega]
  simp only [scanLoopF, show (0:Nat) + 68 = 68 from rfl, hstep2]
  rw [show 135 + noise.length = (134 + noise.length) + 1 by omega]
  simp only [scanLoopF, hstep3]
  simp only [emitPending, flushPending, List.nil_append]
  have hrt : get_read_type_from_delta (((68 + noise.length : Nat) : ℤ) - ((0 : Nat) : ℤ)) =
      if noise.length = 0 then 2 else 5 := by
    unfold get_read_type_from_delta
    by_cases h : noise.length = 0
    · rw [if_pos h, if_pos]
      rw [h]
      norm_num
    · rw [if_neg h, if_neg]
      push_cast
      omega
  rw [hrt]
  rfl

/-- A structurally valid 68-byte record: marker `"VIB"`, type `0x88`,
declared size 68, datetime 2024-01-01 00:00:00, remaining payload
zero. -/
def sampleRecord : List Nat :=
  [86, 73, 66, 0x88, 68, 0] ++ [0, 0, 0, 1, 1, 24] ++ List.replicate 56 0

/-- A default configuration: counter column on, no date filters,
standard precision; the current date is 2024-06-15. -/
def cfgDefault : Config :=
  ⟨true, false, false, none, (2024, 6, 15)⟩

example : sampleRecord.length = 68 := by decide
example : process_record_accepts cfgDefault (sampleRecord ++ [0, 0]) 2 = true := by decide

/-- Read type 5 is outside the `0x45` validity mask, so `process_record`
rejects every candidate emitted with it. -/
lemma accepts_readtype5 (cfg : Config) (rec : List Nat) :
    process_record_accepts cfg rec 5 = false := by
  have h32 : ((32 : Nat) &&& 69) = 0 := by decide
  unfold process_record_accepts is_valid_to_process
  simp [h32]

/-- C1 counterexample: two copies of a valid 68-byte record decode with
read types 2 and 2, but with a single noise byte 7 inserted between
them the first record is emitted with read type 5 instead of 2; with
read type 2 it is accepted (one CSV row), with read type 5 it is
rejected (no row) — so inserting non-marker noise does change the
decoded output of the first record. -/
theorem c1_counterexample :
    processRecords (sampleRecord ++ sampleRecord) =
      [(sampleRecord ++ [0, 0], 2), (sampleRecord ++ [0, 0], 2)]
    ∧ processRecords (sampleRecord ++ ([7] ++ sampleRecord)) =
      [(sampleRecord ++ [0, 0], 5), (sampleRecord ++ [0, 0], 2)]
    ∧ process_record_accepts cfgDefault (sampleRecord ++ [0, 0]) 2 = true
    ∧ process_record_accepts cfgDefault (sampleRecord ++ [0, 0]) 5 = false := by
  refine ⟨?_, ?_, by decide, by decide⟩
  · have h := scanTwoRecords sampleRecord sampleRecord []
      (by decide) (by decide) (by decide) (by decide) (by decide) (by decide)
      (fun k => by simp [startsWithMarker])
    simpa using h
  · have h := scanTwoRecords sampleRecord sampleRecord [7]
      (by decide) (by decide) (by decide) (by decide) (by decide) (by decide)
      (fun k => by
        cases k with
        | zero => decide
        | succ k => simp [startsWithMarker, List.drop_succ_cons])
    simpa using h

/-- C1 (amended): inserting arbitrary non-marker noise between two
valid 68-byte records leaves both markers found with identical raw
candidate bytes, and the second record is still flushed with read
type 2 — but the first record's read type becomes 5 (its delta is no
longer 68) instead of 2, so it is rejected by the validity mask and
produces no output row instead of its decoded row. -/
theorem c1_amended_resync (r1 r2 noise : List Nat) (cfg : Config)
    (h1l : r1.length = 68) (h1m : startsWithMarker r1 = true) (h1s : u16_le r1 4 = 68)
    (h2l : r2.length = 68) (h2m : startsWithMarker r2 = true) (h2s : u16_le r2 4 = 68)
    (hn : ∀ k, startsWithMarker (noise.drop k) = false) (hne : noise ≠ []) :
    processRecords (r1 ++ (noise ++ r2)) = [(r1 ++ [0, 0], 5), (r2 ++ [0, 0], 2)]
    ∧ processRecords (r1 ++ r2) = [(r1 ++ [0, 0], 2), (r2 ++ [0, 0], 2)]
    ∧ process_record_accepts cfg (r1 ++ [0, 0]) 5 = false
    ∧ records_skipped_delta cfg (r1 ++ [0, 0]) 5 = 1 := by
  refine ⟨?_, ?_, accepts_readtype5 cfg (r1 ++ [0, 0]), ?_⟩
  · have h := scanTwoRecords r1 r2 noise h1l h1m h1s h2l h2m h2s hn
    rw [if_neg (by simpa using hne)] at h
    exact h
  · have h := scanTwoRecords r1 r2 [] h1l h1m h1s h2l h2m h2s
      (fun k => by simp [startsWithMarker])
    simpa using h
  · rw [records_skipped_delta, accepts_readtype5 cfg (r1 ++ [0, 0])]
    rfl

/-- Witness for C1: the amended statement applied to a concrete pair of
records with noise byte 7. -/
theorem c1_witness :
    processRecords (sampleRecord ++ ([7] ++ sampleRecord)) =
      [(sampleRecord ++ [0, 0], 5), (sampleRecord ++ [0, 0], 2)]
    ∧ processRecords (sampleRecord ++ sampleRecord) =
      [(sampleRecord ++ [0, 0], 2), (sampleRecord ++ [0, 0], 2)]
    ∧ process_record_accepts cfgDefault (sampleRecord ++ [0, 0]) 5 = false
    ∧ records_skipped_delta cfgDefault (sampleRecord ++ [0, 0]) 5 = 1 := by
  have h := c1_amended_resync sampleRecord sampleRecord [7] cfgDefault
    (by decide) (by decide) (by decide) (by decide) (by decide) (by decide)
    (fun k => by
      cases k with
      | zero => decide
      | succ k => simp [startsWithMarker, List.drop_succ_cons])
    (by simp)
  simpa using h

/-- C4: Structural rejection: a candidate whose read type fails the
`(1 << read_type) & 0x45` mask test (so is outside `{0, 2, 6}`), or
whose declared 16-bit size differs from 68, or whose type byte masked
with `0xFD` differs from `0x88`, is rejected before decoding: the
skipped counter is incremented by one and no output row is written. -/
theorem c4_structural_rejection (cfg : Config) (rec : List Nat) (read_type : Nat)
    (h : ((1 <<< read_type) &&& 0x45 = 0) ∨ u16_le rec 4 ≠ 68
      ∨ rec.getD 3 0 &&& 0xFD ≠ 0x88) :
    process_record_accepts cfg rec read_type = false
    ∧ records_skipped_delta cfg rec read_type = 1 := by
  have hacc : process_record_accepts cfg rec read_type = false := by
    unfold process_record_accepts is_valid_to_process
    rcases h with h | h | h
    · simp [h]
    · simp [h]
    · simp only [List.getD_eq_getElem?_getD] at h
      by_cases h1 : read_type ≤ 9 ∧ u16_le rec 4 = 68 ∧ (1 <<< read_type) &&& 0x45 ≠ 0
      · simp [h1, h]
      · simp [h1]
  exact ⟨hacc, by rw [records_skipped_delta, hacc]; rfl⟩

/-- Witness for C4: the all-zero 70-byte candidate with read type 5
(mask bit clear) is rejected and counted as skipped. -/
theorem c4_witness :
    process_record_accepts cfgDefault (List.replicate 70 0) 5 = false
    ∧ records_skipped_delta cfgDefault (List.replicate 70 0) 5 = 1 :=
  c4_structural_rejection cfgDefault (List.replicate 70 0) 5 (Or.inl (by decide))

/-- The low-two-bits test `y & 3 == 0` is the mod-4 test. -/
lemma and_three_eq_mod (y : Nat) : y &&& 3 = y % 4 := by
  have := Nat.and_pow_two_sub_one_eq_mod y 2
  norm_num at this
  exact this

/-- C5: Calendar validation: `datetime_valid` holds exactly under the
spec's arithmetic conditions (including the divisible-by-4 February
rule on the 2-digit year); a structurally accepted record with an
invalid datetime is always skipped with nothing emitted; and with both
date filters off, a structurally accepted record is kept if and only if
its datetime is valid. -/
theorem c5_calendar_validation :
    (∀ s mi h d mo y, datetime_valid s mi h d mo y = true ↔
      (s ≤ 59 ∧ mi ≤ 59 ∧ h ≤ 23 ∧ y ≤ 99 ∧ 1 ≤ mo ∧ mo ≤ 12 ∧ 1 ≤ d
        ∧ d ≤ daysInMonthSpec mo y))
    ∧ (∀ (cfg : Config) (rec : List Nat) (rt : Nat),
        structurally_accepted rec rt = true →
        datetime_valid (rec.getD 6 0) (rec.getD 7 0) (rec.getD 8 0) (rec.getD 9 0)
          (rec.getD 10 0) (rec.getD 11 0) = false →
        process_record_accepts cfg rec rt = false
          ∧ records_skipped_delta cfg rec rt = 1)
    ∧ (∀ (cfg : Config) (rec : List Nat) (rt : Nat),
        cfg.filter_today = false → cfg.date_filter = none →
        structurally_accepted rec rt = true →
        (process_record_accepts cfg rec rt = true ↔
          datetime_valid (rec.getD 6 0) (rec.getD 7 0) (rec.getD 8 0) (rec.getD 9 0)
            (rec.getD 10 0) (rec.getD 11 0) = true)) := by
  refine ⟨?_, ?_, ?_⟩
  · intro s mi h d mo y
    have hy4 : y &&& 3 = y % 4 := and_three_eq_mod y
    unfold datetime_valid
    split_ifs with h1 h2 h3 h4 h5 h6
    · simp only [Bool.false_eq_true, false_iff]
      omega
    · simp only [Bool.false_eq_true, false_iff]
      omega
    · simp only [Bool.false_eq_true, false_iff]
      omega
    · have hdim : daysInMonthSpec mo y = 31 := by
        rcases h4 with rfl | rfl | rfl | rfl | rfl | rfl | rfl <;> norm_num [daysInMonthSpec]
      rw [hdim]
      simp only [decide_eq_true_eq]
      omega
    · have hdim : daysInMonthSpec mo y = 30 := by
        rcases h5 with rfl | rfl | rfl | rfl <;> norm_num [daysInMonthSpec]
      rw [hdim]
      simp only [decide_eq_true_eq]
      omega
    · have hm2 : mo = 2 := by omega
      subst hm2
      rw [hy4] at h6
      have hdim : daysInMonthSpec 2 y = 29 := by simp [daysInMonthSpec, h6]
      rw [hdim]
      simp only [decide_eq_true_eq]
      omega
    · have hm2 : mo = 2 := by omega
      subst hm2
      rw [hy4] at h6
      have hdim : daysInMonthSpec 2 y = 28 := by simp [daysInMonthSpec, h6]
      rw [hdim]
      simp only [decide_eq_true_eq]
      omega
  · intro cfg rec rt hstruct hdt
    rw [structurally_accepted, Bool.and_eq_true, Bool.and_eq_true] at hstruct
    obtain ⟨⟨hs1, hs2⟩, hs3⟩ := hstruct
    rw [decide_eq_true_eq] at hs2 hs3
    rw [hs3] at hs1
    simp only [List.getD_eq_getElem?_getD] at hs2 hdt
    have hacc : process_record_accepts cfg rec rt = false := by
      unfold process_record_accepts
      simp [hs1, hs2, hs3, hdt]
    exact ⟨hacc, by rw [records_skipped_delta, hacc]; rfl⟩
  · intro cfg rec rt hft hdf hstruct
    rw [structurally_accepted, Bool.and_eq_true, Bool.and_eq_true] at hstruct
    obtain ⟨⟨hs1, hs2⟩, hs3⟩ := hstruct
    rw [decide_eq_true_eq] at hs2 hs3
    rw [hs3] at hs1
    simp only [List.getD_eq_getElem?_getD] at hs2
    unfold process_record_accepts
    cases hdt : datetime_valid (rec.getD 6 0) (rec.getD 7 0) (rec.getD 8 0) (rec.getD 9 0)
        (rec.getD 10 0) (rec.getD 11 0) with
    | false =>
      simp only [List.getD_eq_getElem?_getD] at hdt
      simp [hs1, hs2, hs3, hdt]
    | true =>
      simp only [List.getD_eq_getElem?_getD] at hdt
      simp [hs1, hs2, hs3, hdt, hft, hdf]

/-- Witness for C5: a record whose month byte is 13 is skipped, and the
valid sample record is kept exactly because its datetime is valid. -/
theorem c5_witness :
    (process_record_accepts cfgDefault
        ([86, 73, 66, 0x88, 68, 0] ++ [0, 0, 0, 1, 13, 24] ++ List.replicate 58 0) 2 = false
      ∧ records_skipped_delta cfgDefault
        ([86, 73, 66, 0x88, 68, 0] ++ [0, 0, 0, 1, 13, 24] ++ List.replicate 58 0) 2 = 1)
    ∧ (process_record_accepts cfgDefault (sampleRecord ++ [0, 0]) 2 = true ↔
        datetime_valid ((sampleRecord ++ [0, 0]).getD 6 0) ((sampleRecord ++ [0, 0]).getD 7 0)
          ((sampleRecord ++ [0, 0]).getD 8 0) ((sampleRecord ++ [0, 0]).getD 9 0)
          ((sampleRecord ++ [0, 0]).getD 10 0) ((sampleRecord ++ [0, 0]).getD 11 0) = true) :=
  ⟨c5_calendar_validation.2.1 cfgDefault
      ([86, 73, 66, 0x88, 68, 0] ++ [0, 0, 0, 1, 13, 24] ++ List.replicate 58 0) 2
      (by decide) (by decide),
    c5_calendar_validation.2.2 cfgDefault (sampleRecord ++ [0, 0]) 2 rfl rfl (by decide)⟩

/-- C10: Filter precedence: when `filter_today` is set the exact-date
filter is never consulted — the decision is unchanged under any
`date_filter`, and an otherwise-valid record is kept exactly when its
decoded date equals the current date; the exact-date filter is applied
only when `filter_today` is unset. -/
theorem c10_filter_precedence :
    (∀ (cfg : Config) (rec : List Nat) (rt : Nat) (df : Option String),
        cfg.filter_today = true →
        process_record_accepts cfg rec rt
          = process_record_accepts { cfg with date_filter := df } rec rt)
    ∧ (∀ (cfg : Config) (rec : List Nat) (rt : Nat),
        cfg.filter_today = true → structurally_accepted rec rt = true →
        datetime_valid (rec.getD 6 0) (rec.getD 7 0) (rec.getD 8 0) (rec.getD 9 0)
          (rec.getD 10 0) (rec.getD 11 0) = true →
        (process_record_accepts cfg rec rt = true ↔
          (2000 + rec.getD 11 0, rec.getD 10 0, rec.getD 9 0) = cfg.today))
    ∧ (∀ (cfg : Config) (rec : List Nat) (rt : Nat) (df : String),
        cfg.filter_today = false → cfg.date_filter = some df →
        structurally_accepted rec rt = true →
        datetime_valid (rec.getD 6 0) (rec.getD 7 0) (rec.getD 8 0) (rec.getD 9 0)
          (rec.getD 10 0) (rec.getD 11 0) = true →
        (process_record_accepts cfg rec rt = true ↔
          dateString (2000 + rec.getD 11 0) (rec.getD 10 0) (rec.getD 9 0) = df)) := by
  refine ⟨?_, ?_, ?_⟩
  · intro cfg rec rt df hft
    unfold process_record_accepts
    simp [hft]
  · intro cfg rec rt hft hstruct hdt
    rw [structurally_accepted, Bool.and_eq_true, Bool.and_eq_true] at hstruct
    obtain ⟨⟨hs1, hs2⟩, hs3⟩ := hstruct
    rw [decide_eq_true_eq] at hs2 hs3
    rw [hs3] at hs1
    simp only [List.getD_eq_getElem?_getD] at hs2 hdt
    unfold process_record_accepts
    simp [hs1, hs2, hs3, hdt, hft]
  · intro cfg rec rt df hft hdf hstruct hdt
    rw [structurally_accepted, Bool.and_eq_true, Bool.and_eq_true] at hstruct
    obtain ⟨⟨hs1, hs2⟩, hs3⟩ := hstruct
    rw [decide_eq_true_eq] at hs2 hs3
    rw [hs3] at hs1
    simp only [List.getD_eq_getElem?_getD] at hs2 hdt
    unfold process_record_accepts
    simp [hs1, hs2, hs3, hdt, hft, hdf]

/-- Witness for C10: with `filter_today` set, swapping the exact-date
filter string for `none` does not change the decision on the sample
record, and the record is kept exactly when its date is the current
date. -/
theorem c10_witness :
    (process_record_accepts ⟨true, true, false, some "1999-01-01", (2024, 1, 1)⟩
        (sampleRecord ++ [0, 0]) 2
      = process_record_accepts
        { (⟨true, true, false, some "1999-01-01", (2024, 1, 1)⟩ : Config) with
            date_filter := none } (sampleRecord ++ [0, 0]) 2)
    ∧ (process_record_accepts ⟨true, true, false, some "1999-01-01", (2024, 1, 1)⟩
          (sampleRecord ++ [0, 0]) 2 = true ↔
        (2000 + (sampleRecord ++ [0, 0]).getD 11 0, (sampleRecord ++ [0, 0]).getD 10 0,
          (sampleRecord ++ [0, 0]).getD 9 0)
          = (⟨true, true, false, some "1999-01-01", (2024, 1, 1)⟩ : Config).today)
    ∧ (process_record_accepts ⟨true, false, false, some "2024-01-01", (2024, 1, 1)⟩
          (sampleRecord ++ [0, 0]) 2 = true ↔
        dateString (2000 + (sampleRecord ++ [0, 0]).getD 11 0)
          ((sampleRecord ++ [0, 0]).getD 10 0) ((sampleRecord ++ [0, 0]).getD 9 0)
          = "2024-01-01") :=
  ⟨c10_filter_precedence.1 ⟨true, true, false, some "1999-01-01", (2024, 1, 1)⟩
      (sampleRecord ++ [0, 0]) 2 none rfl,
    c10_filter_precedence.2.1 ⟨true, true, false, some "1999-01-01", (2024, 1, 1)⟩
      (sampleRecord ++ [0, 0]) 2 rfl (by decide) (by decide),
    c10_filter_precedence.2.2 ⟨true, false, false, some "2024-01-01", (2024, 1, 1)⟩
      (sampleRecord ++ [0, 0]) 2 "2024-01-01" rfl rfl (by decide) (by decide)⟩

/-- C2 (code-bug evidence): `sv_is_value_valid` and `sv_from_float16`
evaluate a left shift by `-1` (a Python `ValueError`) on any 16-bit
field whose top five bits are zero, such as 0; `sv_from_float16`
passes through negative raws like `-22528`, on which the KB-mode
decode hands a negative number to `math.sqrt` (`ValueError`); and a
fully accepted record can carry such a field, so processing such input
raises instead of being total. -/
theorem c2_no_panic_codebug :
    sv_is_value_valid 0 = none
    ∧ sv_from_float16 0 = none
    ∧ sv_from_float16 (-22528) = some (-22528)
    ∧ kb_sqrt_defined (-22528) = false
    ∧ ∃ rec : List Nat, process_record_accepts cfgDefault rec 2 = true
        ∧ u16_le rec 14 = 0 ∧ axis_status rec 14 = none :=
  ⟨by decide, by decide, by decide, by decide,
    ⟨sampleRecord ++ [0, 0], by decide, by decide, by decide⟩⟩

/-- C6: Odd-tie formatting: the rounded integer of `format_fixed_odd`
is floor+1 when the fractional remainder of `|value| * 10^decimals`
exceeds 1/2 by more than the 1e-7 tolerance, floor when it falls short
of 1/2 by more than the tolerance, and within the tolerance of 1/2 it
is whichever of floor and floor+1 is odd; the sign is reapplied after
rounding the absolute value; 2.5 at 0 decimals renders as "3" and 3.5
at 0 decimals renders as "3". -/
theorem c6_odd_tie_formatting :
    (∀ (v : ℚ) (d : Nat),
        (|v * 10 ^ d| - ⌊|v * 10 ^ d|⌋ > 1/2 + tieEps →
          fixedOddRounded v d = ⌊|v * 10 ^ d|⌋ + 1)
        ∧ (|v * 10 ^ d| - ⌊|v * 10 ^ d|⌋ < 1/2 - tieEps →
          fixedOddRounded v d = ⌊|v * 10 ^ d|⌋)
        ∧ (1/2 - tieEps ≤ |v * 10 ^ d| - ⌊|v * 10 ^ d|⌋ →
           |v * 10 ^ d| - ⌊|v * 10 ^ d|⌋ ≤ 1/2 + tieEps →
          fixedOddRounded v d % 2 = 1
            ∧ (fixedOddRounded v d = ⌊|v * 10 ^ d|⌋
              ∨ fixedOddRounded v d = ⌊|v * 10 ^ d|⌋ + 1))
        ∧ (0 < v → format_fixed_odd (-v) d = "-" ++ format_fixed_odd v d))
    ∧ format_fixed_odd (5/2) 0 = "3"
    ∧ format_fixed_odd (7/2) 0 = "3" := by
  have heps : (0 : ℚ) < tieEps := by norm_num [tieEps]
  refine ⟨?_, ?_, ?_⟩
  · intro v d
    refine ⟨?_, ?_, ?_, ?_⟩
    · intro h
      unfold fixedOddRounded
      rw [if_pos h]
    · intro h
      unfold fixedOddRounded
      rw [if_neg (by linarith), if_pos h]
    · intro hlo hhi
      unfold fixedOddRounded
      rw [if_neg (by linarith), if_neg (by linarith)]
      have hfl : 0 ≤ ⌊|v * 10 ^ d|⌋ := Int.floor_nonneg.2 (abs_nonneg _)
      split_ifs with hpar
      · exact ⟨by omega, Or.inr rfl⟩
      · exact ⟨by omega, Or.inl rfl⟩
    · intro hv
      have hpow : (0 : ℚ) < 10 ^ d := by positivity
      have hvp : 0 < v * 10 ^ d := mul_pos hv hpow
      have hr : fixedOddRounded (-v) d = fixedOddRounded v d := by
        unfold fixedOddRounded
        rw [neg_mul, abs_neg]
      unfold format_fixed_odd
      rw [hr, if_neg (by rw [neg_mul]; linarith), if_pos (le_of_lt hvp),
        String.empty_append]
  · have h : fixedOddRounded (5/2) 0 = 3 := by
      rw [fixedOddRounded]
      rw [show |(5/2 : ℚ) * 10 ^ (0:ℕ)| = 5/2 by norm_num]
      rw [show ⌊(5/2 : ℚ)⌋ = 2 by norm_num]
      norm_num [tieEps]
    rw [format_fixed_odd, h]
    rw [if_pos (by norm_num : (0:ℚ) ≤ 5/2 * 10 ^ (0:ℕ))]
    decide
  · have h : fixedOddRounded (7/2) 0 = 3 := by
      rw [fixedOddRounded]
      rw [show |(7/2 : ℚ) * 10 ^ (0:ℕ)| = 7/2 by norm_num]
      rw [show ⌊(7/2 : ℚ)⌋ = 3 by norm_num]
      norm_num [tieEps]
    rw [format_fixed_odd, h]
    rw [if_pos (by norm_num : (0:ℚ) ≤ 7/2 * 10 ^ (0:ℕ))]
    decide

/-- Witness for C6: the tie at 2.5 rounds to the odd neighbour, 2.6
rounds up, 2.4 rounds down, and the sign is reapplied for -2.5. -/
theorem c6_witness :
    (fixedOddRounded (5/2) 0 % 2 = 1
      ∧ (fixedOddRounded (5/2) 0 = ⌊|(5/2 : ℚ) * 10 ^ (0:ℕ)|⌋
        ∨ fixedOddRounded (5/2) 0 = ⌊|(5/2 : ℚ) * 10 ^ (0:ℕ)|⌋ + 1))
    ∧ fixedOddRounded (13/5) 0 = ⌊|(13/5 : ℚ) * 10 ^ (0:ℕ)|⌋ + 1
    ∧ fixedOddRounded (12/5) 0 = ⌊|(12/5 : ℚ) * 10 ^ (0:ℕ)|⌋
    ∧ format_fixed_odd (-(5/2)) 0 = "-" ++ format_fixed_odd (5/2) 0 :=
  ⟨(c6_odd_tie_formatting.1 (5/2) 0).2.2.1
      (by rw [show |(5/2 : ℚ) * 10 ^ (0:ℕ)| = 5/2 by norm_num,
            show ⌊(5/2 : ℚ)⌋ = 2 by norm_num]; norm_num [tieEps])
      (by rw [show |(5/2 : ℚ) * 10 ^ (0:ℕ)| = 5/2 by norm_num,
            show ⌊(5/2 : ℚ)⌋ = 2 by norm_num]; norm_num [tieEps]),
    (c6_odd_tie_formatting.1 (13/5) 0).1
      (by rw [show |(13/5 : ℚ) * 10 ^ (0:ℕ)| = 13/5 by norm_num,
            show ⌊(13/5 : ℚ)⌋ = 2 by norm_num]; norm_num [tieEps]),
    (c6_odd_tie_formatting.1 (12/5) 0).2.1
      (by rw [show |(12/5 : ℚ) * 10 ^ (0:ℕ)| = 12/5 by norm_num,
            show ⌊(12/5 : ℚ)⌋ = 2 by norm_num]; norm_num [tieEps]),
    (c6_odd_tie_formatting.1 (5/2) 0).2.2.2 (by norm_num)⟩

/-- A number below `2^11` ORed with `2^11` is that number plus `2^11`
(the OR sets a bit that is clear). -/
lemma lor_two_pow_of_lt {m : Nat} (h : m < 2 ^ 11) : m ||| 2 ^ 11 = m + 2 ^ 11 := by
  apply Nat.eq_of_testBit_eq
  intro i
  rw [Nat.testBit_lor]
  rcases lt_trichotomy i 11 with hi | hi | hi
  · rw [Nat.add_comm m, Nat.testBit_two_pow_add_gt hi]
    rw [Nat.testBit_two_pow_of_ne (by omega)]
    simp
  · subst hi
    rw [Nat.testBit_lt_two_pow h, Nat.testBit_two_pow_self, Nat.add_comm m,
      Nat.testBit_two_pow_add_eq, Nat.testBit_lt_two_pow h]
    simp
  · have h2 : (2 : Nat) ^ 12 ≤ 2 ^ i := Nat.pow_le_pow_right (by norm_num) (by omega)
    have hm : m < 2 ^ i := by
      calc m < 2 ^ 11 := h
      _ ≤ 2 ^ i := Nat.pow_le_pow_right (by norm_num) (by omega)
    rw [Nat.testBit_lt_two_pow hm, Nat.testBit_two_pow_of_ne (by omega),
      Nat.testBit_lt_two_pow (by norm_num at h2 ⊢; omega)]
    simp

/-- C7 counterexample: at raw input 0 the exponent is
`((0 & 0xFFFF) >> 11) - 1 = -1 ≤ 0x13`, and instead of returning the
claimed shifted mantissa, `sv_from_float16` raises (`none`): it does
not return a value for every signed 16-bit input. -/
theorem c7_counterexample : sv_from_float16 0 = none := by decide

/-- C7 (amended): for every signed 16-bit raw with exponent
`e = ((raw & 0xFFFF) >> 11) - 1`: when `0 ≤ e ≤ 0x13` the result is
the low 11 bits of raw with bit 11 forced set (`raw % 2048 + 2048`),
left-shifted by `e`; when `e > 0x13` the raw value passes through
unchanged; but when `e < 0` (top five bits of `raw & 0xFFFF` all zero)
the Python code raises `ValueError` on the negative shift and returns
nothing.  When a value is returned and is neither a sentinel nor
overload, the rendered physical value is the integer divided by
1,000,000. -/
theorem c7_amended_float16 :
    (∀ raw : Int, -32768 ≤ raw → raw ≤ 32767 →
        (0 ≤ (raw % 65536) / 2048 - 1 → (raw % 65536) / 2048 - 1 ≤ 0x13 →
          sv_from_float16 raw
            = some ((raw % 2048 + 2048) * 2 ^ ((raw % 65536) / 2048 - 1).toNat))
        ∧ ((raw % 65536) / 2048 - 1 > 0x13 → sv_from_float16 raw = some raw)
        ∧ ((raw % 65536) / 2048 - 1 < 0 → sv_from_float16 raw = none))
    ∧ (∀ (cfg : Config) (u : Nat) (v : Int), sv_from_float16 (to_i16 u) = some v →
        is_special_value v = false → is_overload v = false →
        format_float16 cfg u
          = some (format_fixed_odd ((v : ℚ) / 1000000)
              (if cfg.long_format then 4 else 2))) := by
  constructor
  · intro raw h1 h2
    refine ⟨?_, ?_, ?_⟩
    · intro he0 he19
      unfold sv_from_float16
      rw [if_pos he19, if_neg (by omega)]
      have hm : 0 ≤ raw % 2048 := Int.emod_nonneg raw (by norm_num)
      have hmlt : raw % 2048 < 2048 := Int.emod_lt_of_pos raw (by norm_num)
      have hor : ((raw % 2048).toNat ||| 2048) = (raw % 2048).toNat + 2048 := by
        have := lor_two_pow_of_lt (m := (raw % 2048).toNat) (by norm_num; omega)
        norm_num at this
        exact this
      rw [show (0x800 : Nat) = 2048 from rfl, hor]
      simp only [Nat.shiftLeft_eq]
      push_cast [Int.toNat_of_nonneg hm]
      ring_nf
    · intro he
      unfold sv_from_float16
      rw [if_neg (by omega)]
    · intro he
      unfold sv_from_float16
      rw [if_pos (by omega), if_pos he]
  · intro cfg u v hsv hsp hov
    unfold format_float16
    rw [hsv]
    simp [hsp, hov]

/-- Witness for C7: at raw 4096 the exponent is 1 and the decode
returns `(0 + 2048) << 1 = 4096`. -/
theorem c7_witness :
    sv_from_float16 4096 = some 4096
    ∧ format_float16 cfgDefault 4096
      = some (format_fixed_odd (((4096 : Int) : ℚ) / 1000000)
          (if cfgDefault.long_format then 4 else 2)) := by
  constructor
  · have h := (c7_amended_float16.1 4096 (by norm_num) (by norm_num)).1
      (by norm_num) (by norm_num)
    rw [h]
    decide
  · exact c7_amended_float16.2 cfgDefault 4096 4096 (by decide) (by decide) (by decide)

/-- C8: Geophone decode: the top two bits of the 16-bit ID select the
tag (`0x4000` → TDA, `0x8000` → TDS, `0xC000` → the fixed 8-character
placeholder, anything else → unknown) and, except in the `0xC000`
case, the low 14 bits are appended zero-padded to 5 digits; `0x4005`
renders as TDA00005, `0xC000` as the placeholder, and `0x0007` as
unknown00007. -/
theorem c8_geophone_decode :
    (∀ v : Nat,
        (v &&& 0xC000 = 0x4000 → format_geophone v = "TDA" ++ padNum 5 (v &&& 0x3FFF))
        ∧ (v &&& 0xC000 = 0x8000 → format_geophone v = "TDS" ++ padNum 5 (v &&& 0x3FFF))
        ∧ (v &&& 0xC000 = 0xC000 →
            format_geophone v = "???00000" ∧ ("???00000" : String).length = 8)
        ∧ (v &&& 0xC000 ≠ 0x4000 → v &&& 0xC000 ≠ 0x8000 → v &&& 0xC000 ≠ 0xC000 →
            format_geophone v = "unknown" ++ padNum 5 (v &&& 0x3FFF)))
    ∧ format_geophone 0x4005 = "TDA00005"
    ∧ format_geophone 0xC000 = "???00000"
    ∧ format_geophone 0x0007 = "unknown00007" := by
  refine ⟨?_, by decide, by decide, by decide⟩
  intro v
  refine ⟨?_, ?_, ?_, ?_⟩
  · intro h
    unfold format_geophone
    rw [if_pos h]
  · intro h
    unfold format_geophone
    rw [if_neg (by rw [h]; decide), if_pos h]
  · intro h
    unfold format_geophone
    rw [if_neg (by rw [h]; decide), if_neg (by rw [h]; decide), if_pos h]
    exact ⟨rfl, by decide⟩
  · intro h1 h2 h3
    unfold format_geophone
    rw [if_neg h1, if_neg h2, if_neg h3]

/-- Witness for C8: the general tag/number decomposition applied at the
three concrete IDs of the claim. -/
theorem c8_witness :
    format_geophone 0x4005 = "TDA" ++ padNum 5 (0x4005 &&& 0x3FFF)
    ∧ format_geophone 0x8001 = "TDS" ++ padNum 5 (0x8001 &&& 0x3FFF)
    ∧ (format_geophone 0xC000 = "???00000" ∧ ("???00000" : String).length = 8)
    ∧ format_geophone 7 = "unknown" ++ padNum 5 (7 &&& 0x3FFF) :=
  ⟨(c8_geophone_decode.1 0x4005).1 (by decide),
    (c8_geophone_decode.1 0x8001).2.1 (by decide),
    (c8_geophone_decode.1 0xC000).2.2.1 (by decide),
    (c8_geophone_decode.1 7).2.2.2 (by decide) (by decide) (by decide)⟩

end Vif
